/-
  Verification development for the remote-filesystem terraform provider.

  Shallow embedding of:
  - the shell-command construction of `RemoteClient` (file.go, session-pool
    variant): WriteFileShell, ChmodFile, CreateDir, ChgrpFile, ChownFile,
    FileExists, ReadFileShell, ReadFilePermissions, StatFile, DeleteFolder,
    DeleteFileShell;
  - the `SessionPool` (NewSessionPool / Get / Put / Close) as a sequential
    state machine;
  - the channel lease/run/release traces of each client method;
  - the file and folder resource reconcilers (Create command sequences,
    Update mutation sequences, post-mutation attribute refresh) together
    with `parseInt` (strconv.ParseInt base 10 bitSize 32, error dropped).
-/
import Mathlib

set_option linter.unusedVariables false

namespace RemoteProvider

/-! ## String helpers mirroring the Go standard library -/

/-- Go `strings.Contains` / `bytes.Contains`: substring test. -/
def goContains (s sub : String) : Bool :=
  decide (sub.data <:+: s.data)

/-- Go `strings.Split(s, "/")` – Lean's `String.splitOn` has the same
behaviour for a non-empty separator. -/
def goSplitSlash (s : String) : List String :=
  s.splitOn "/"

/-- Go `strings.Join(elems, "/")`. -/
def goJoinSlash (elems : List String) : String :=
  String.intercalate "/" elems

/-- Go `strings.ReplaceAll(s, "\n", "")`: drop every newline character. -/
def goStripNewlines (s : String) : String :=
  String.mk (s.data.filter (fun c => c ≠ '\n'))

/-! ## RemoteClient command construction (file.go, session-pool variant)

Each `RemoteClient` method takes a per-call sudo argument (`sudoArg`, since `sudo` is reserved here); the
command text only ever consults the client's own configured flag (`sudoCfg`).  The
per-call argument is kept in every signature to mirror the source. -/

/-- The configuration of `RemoteClient` relevant to command construction. -/
structure RemoteClient where
  sudoCfg : Bool

/-- `WriteFileShell`: `cmd := "tee <path>"`, sudo-prefixed on `c.sudoCfg`, then
`"cat /dev/stdin | " + cmd`, then when `ensureDir` is set the directory part
(`strings.Split` on `/`, last element dropped, re-joined) is prefixed with
`mkdir -p <dir> && `. -/
def writeFileShellCmd (c : RemoteClient) (content path : String)
    (sudoArg : Bool) (ensureDir : Bool) : String :=
  let cmd := "tee " ++ path
  let cmd := if c.sudoCfg then "sudo " ++ cmd else cmd
  let cmd := "cat /dev/stdin | " ++ cmd
  if ensureDir then
    let dirPathElements := goSplitSlash path
    let dirPathElements := dirPathElements.dropLast
    let dirPath := goJoinSlash dirPathElements
    "mkdir -p " ++ dirPath ++ " && " ++ cmd
  else
    cmd

/-- `ChmodFile`: `chmod <permissions> <path>`, sudo-prefixed on `c.sudoCfg`. -/
def chmodFileCmd (c : RemoteClient) (path permissions : String)
    (sudoArg : Bool) : String :=
  let cmd := "chmod " ++ permissions ++ " " ++ path
  if c.sudoCfg then "sudo " ++ cmd else cmd

/-- `CreateDir`: `mkdir -p <path>`, sudo-prefixed on `c.sudoCfg`. -/
def createDirCmd (c : RemoteClient) (path : String) (sudoArg : Bool) : String :=
  let cmd := "mkdir -p " ++ path
  if c.sudoCfg then "sudo " ++ cmd else cmd

/-- `ChgrpFile`: `chgrp <group> <path>`, sudo-prefixed on `c.sudoCfg`. -/
def chgrpFileCmd (c : RemoteClient) (path group : String)
    (sudoArg : Bool) : String :=
  let cmd := "chgrp " ++ group ++ " " ++ path
  if c.sudoCfg then "sudo " ++ cmd else cmd

/-- `ChownFile`: `chown <owner> <path>`, sudo-prefixed on `c.sudoCfg`. -/
def chownFileCmd (c : RemoteClient) (path owner : String)
    (sudoArg : Bool) : String :=
  let cmd := "chown " ++ owner ++ " " ++ path
  if c.sudoCfg then "sudo " ++ cmd else cmd

/-- `FileExists`, first probe: `test -f <path>`, sudo-prefixed on `c.sudoCfg`. -/
def fileExistsCmd1 (c : RemoteClient) (path : String) (sudoArg : Bool) : String :=
  let cmd := "test -f " ++ path
  if c.sudoCfg then "sudo " ++ cmd else cmd

/-- `FileExists`, second probe: `test ! -f <path>`, sudo-prefixed on `c.sudoCfg`. -/
def fileExistsCmd2 (c : RemoteClient) (path : String) (sudoArg : Bool) : String :=
  let cmd := "test ! -f " ++ path
  if c.sudoCfg then "sudo " ++ cmd else cmd

/-- `ReadFileShell`: `cat <path>`, sudo-prefixed on `c.sudoCfg`. -/
def readFileCmd (c : RemoteClient) (path : String) (sudoArg : Bool) : String :=
  let cmd := "cat " ++ path
  if c.sudoCfg then "sudo " ++ cmd else cmd

/-- `ReadFilePermissions`: `stat -c %a <path>`, sudo-prefixed on `c.sudoCfg`. -/
def readFilePermissionsCmd (c : RemoteClient) (path : String)
    (sudoArg : Bool) : String :=
  let cmd := "stat -c %a " ++ path
  if c.sudoCfg then "sudo " ++ cmd else cmd

/-- `StatFile`: `stat -c %<char> <path>`, sudo-prefixed on `c.sudoCfg`. -/
def statFileCmd (c : RemoteClient) (path char : String)
    (sudoArg : Bool) : String :=
  let cmd := "stat -c %" ++ char ++ " " ++ path
  if c.sudoCfg then "sudo " ++ cmd else cmd

/-- `DeleteFolder`: `rm -rf <path>`, sudo-prefixed on `c.sudoCfg`. -/
def deleteFolderCmd (c : RemoteClient) (path : String) (sudoArg : Bool) : String :=
  let cmd := "rm -rf " ++ path
  if c.sudoCfg then "sudo " ++ cmd else cmd

/-- `DeleteFileShell`: `rm <path>`, sudo-prefixed on `c.sudoCfg`. -/
def deleteFileCmd (c : RemoteClient) (path : String) (sudoArg : Bool) : String :=
  let cmd := "rm " ++ path
  if c.sudoCfg then "sudo " ++ cmd else cmd

/-- `dirExists`: `[ -d "<path>" ] && exit 0 || exit 1 ` (trailing space as
in the source); never sudo-prefixed and takes no per-call sudo argument. -/
def dirExistsCmd (c : RemoteClient) (path : String) : String :=
  "[ -d \"" ++ path ++ "\" ] && exit 0 || exit 1 "

/-! ## SessionPool (file.go): sequential state machine

The pool holds a buffered channel of capacity `cap` used as a counting
semaphore (`used` tokens currently held) and a `closed` flag.  `Get` and
`Put` are modelled as atomic steps on this state; `Get` on a full pool
blocks, rendered here as a step that completes with no state change and
the distinguished outcome `blocked`. -/

structure SessionPool where
  cap : Nat
  used : Nat
  closed : Bool
deriving DecidableEq, Repr

/-- `NewSessionPool`: a non-positive `maxSize` falls back to 10 (SSHD's
default MaxSessions); the semaphore channel starts empty, pool open. -/
def newSessionPool (maxSize : Int) : SessionPool :=
  let maxSize := if maxSize ≤ 0 then 10 else maxSize
  { cap := maxSize.toNat, used := 0, closed := false }

inductive GetOutcome where
  | leased
  | sessionFailed
  | poolClosed
  | blocked
deriving DecidableEq, Repr

/-- `SessionPool.Get`: if the pool is closed, return the "session pool is
closed" error; otherwise acquire a semaphore slot (block while full), then
open a session — on session-creation failure the slot is released again
before returning the error. -/
def poolGet (p : SessionPool) (sessionOk : Bool) : SessionPool × GetOutcome :=
  if p.closed then
    (p, .poolClosed)
  else if p.used < p.cap then
    if sessionOk then
      ({ p with used := p.used + 1 }, .leased)
    else
      (p, .sessionFailed)
  else
    (p, .blocked)

/-- `SessionPool.Put`: a nil session returns immediately; otherwise the
session is closed (second component `true`) and one semaphore token is
received when one is present (`select` with a `default` branch: no block,
no decrement when the channel is empty). -/
def poolPut (p : SessionPool) (nonNil : Bool) : SessionPool × Bool :=
  if nonNil then
    (if 0 < p.used then { p with used := p.used - 1 } else p, true)
  else
    (p, false)

/-- `SessionPool.Close`: mark the pool closed; the semaphore is neither
drained nor invalidated. -/
def poolClose (p : SessionPool) : SessionPool :=
  { p with closed := true }

inductive PoolOp where
  | get (sessionOk : Bool)
  | put (nonNil : Bool)
  | close
deriving DecidableEq, Repr

def poolStep (p : SessionPool) : PoolOp → SessionPool
  | .get sessionOk => (poolGet p sessionOk).1
  | .put nonNil => (poolPut p nonNil).1
  | .close => poolClose p

def poolExec (p : SessionPool) (ops : List PoolOp) : SessionPool :=
  ops.foldl poolStep p

/-! ## Channel lease / run / release traces of the RemoteClient methods

Each client method is rendered as the sequence of pool and channel events
it performs, as a function of the outcomes of its fallible steps
(`getOk`: whether `NewSession` succeeds; `stdinOk`: whether `StdinPipe`
succeeds; `runOk`: whether the remote command exits zero).  `defer
c.ReleaseSession(session)` is rendered by a `release` event on every exit
path after a successful lease. -/

inductive ChanEvent where
  | lease (ok : Bool)
  | run (cmd : String)
  | release
deriving DecidableEq, Repr

/-- Trace of every single-session method (`session := NewSession()`; on
error return; `defer Release`; `run(session, cmd)`). -/
def singleSessionTrace (getOk : Bool) (cmd : String) : List ChanEvent :=
  if getOk then [.lease true, .run cmd, .release] else [.lease false]

def writeFileTrace (c : RemoteClient) (content path : String)
    (sudoArg ensureDir : Bool) (getOk stdinOk : Bool) : List ChanEvent :=
  if getOk then
    if stdinOk then
      [.lease true, .run (writeFileShellCmd c content path sudoArg ensureDir),
       .release]
    else
      [.lease true, .release]
  else
    [.lease false]

def chmodFileTrace (c : RemoteClient) (path permissions : String)
    (sudoArg : Bool) (getOk : Bool) : List ChanEvent :=
  singleSessionTrace getOk (chmodFileCmd c path permissions sudoArg)

def createDirTrace (c : RemoteClient) (path : String) (sudoArg : Bool)
    (getOk : Bool) : List ChanEvent :=
  singleSessionTrace getOk (createDirCmd c path sudoArg)

def chgrpFileTrace (c : RemoteClient) (path group : String) (sudoArg : Bool)
    (getOk : Bool) : List ChanEvent :=
  singleSessionTrace getOk (chgrpFileCmd c path group sudoArg)

def chownFileTrace (c : RemoteClient) (path owner : String) (sudoArg : Bool)
    (getOk : Bool) : List ChanEvent :=
  singleSessionTrace getOk (chownFileCmd c path owner sudoArg)

def readFileTrace (c : RemoteClient) (path : String) (sudoArg : Bool)
    (getOk : Bool) : List ChanEvent :=
  singleSessionTrace getOk (readFileCmd c path sudoArg)

def readFilePermissionsTrace (c : RemoteClient) (path : String)
    (sudoArg : Bool) (getOk : Bool) : List ChanEvent :=
  singleSessionTrace getOk (readFilePermissionsCmd c path sudoArg)

def statFileTrace (c : RemoteClient) (path char : String) (sudoArg : Bool)
    (getOk : Bool) : List ChanEvent :=
  singleSessionTrace getOk (statFileCmd c path char sudoArg)

def dirExistsTrace (c : RemoteClient) (path : String)
    (getOk : Bool) : List ChanEvent :=
  singleSessionTrace getOk (dirExistsCmd c path)

def deleteFolderTrace (c : RemoteClient) (path : String) (sudoArg : Bool)
    (getOk : Bool) : List ChanEvent :=
  singleSessionTrace getOk (deleteFolderCmd c path sudoArg)

def deleteFileTrace (c : RemoteClient) (path : String) (sudoArg : Bool)
    (getOk : Bool) : List ChanEvent :=
  singleSessionTrace getOk (deleteFileCmd c path sudoArg)

/-- `FileExists`: lease, run `test -f`; on success return `true`.  On probe
failure lease a second session (the first one's deferred release still
pending), run `test ! -f`, then both deferred releases fire in LIFO
order. -/
def fileExistsTrace (c : RemoteClient) (path : String) (sudoArg : Bool)
    (getOk runOk getOk2 : Bool) : List ChanEvent :=
  if getOk then
    if runOk then
      [.lease true, .run (fileExistsCmd1 c path sudoArg), .release]
    else
      if getOk2 then
        [.lease true, .run (fileExistsCmd1 c path sudoArg),
         .lease true, .run (fileExistsCmd2 c path sudoArg),
         .release, .release]
      else
        [.lease true, .run (fileExistsCmd1 c path sudoArg),
         .lease false, .release]
  else
    [.lease false]

/-- Number of successful leases in a trace. -/
def countLeased : List ChanEvent → Nat
  | [] => 0
  | .lease true :: rest => countLeased rest + 1
  | _ :: rest => countLeased rest

/-- Number of releases in a trace. -/
def countReleased : List ChanEvent → Nat
  | [] => 0
  | .release :: rest => countReleased rest + 1
  | _ :: rest => countReleased rest

/-- Number of commands run in a trace. -/
def countRun : List ChanEvent → Nat
  | [] => 0
  | .run _ :: rest => countRun rest + 1
  | _ :: rest => countRun rest

/-! ## Terraform attribute values

The terraform-plugin-framework base types (`types.String`, `types.Int64`,
`types.Bool`) are three-valued: unknown, null, or a known value.  Go `==`
on these structs, and the framework's `Equal`, compare the whole tagged
value; `IsUnknown` tests the unknown tag. -/

inductive TF (α : Type) where
  | unknown
  | null
  | value (v : α)
deriving DecidableEq, Repr

def TF.isUnknown {α : Type} : TF α → Bool
  | .unknown => true
  | _ => false

/-- Modelled from the framework (external collaborator, not under src/):
`StringValue.ValueString` returns the known value, and the empty string for
null or unknown. -/
def TF.valueString : TF String → String
  | .value v => v
  | _ => ""

/-- Modelled from the framework: `BoolValue.ValueBool` returns the known
value, `false` for null or unknown. -/
def TF.valueBool : TF Bool → Bool
  | .value v => v
  | _ => false

/-- Characters for which Go `%q` (strconv.Quote) emits the character
itself: printable ASCII other than the quote and the backslash.  The
control-character and non-ASCII escapes of `%q` are not modelled. -/
def plainChar (c : Char) : Bool :=
  (' ' ≤ c ∧ c ≤ '~') ∧ c ≠ '"' ∧ c ≠ '\\'

def goQuoteChar (c : Char) : List Char :=
  if c = '"' then ['\\', '"']
  else if c = '\\' then ['\\', '\\']
  else [c]

/-- Modelled from the framework: Go `strconv.Quote` restricted to plain
printable ASCII content — the value wrapped in double quotes, quote and
backslash characters escaped. -/
def goQuote (s : String) : String :=
  "\"" ++ String.mk (s.data.flatMap goQuoteChar) ++ "\""

/-- Modelled from the framework: `StringValue.String()` — `"<unknown>"`,
`"<null>"`, or the `%q`-quoted known value. -/
def TF.reprString : TF String → String
  | .unknown => "<unknown>"
  | .null => "<null>"
  | .value v => goQuote v

/-- Modelled from the framework: `Int64Value.String()` — `"<unknown>"`,
`"<null>"`, or the decimal rendering of the known value. -/
def TF.reprInt64 : TF Int → String
  | .unknown => "<unknown>"
  | .null => "<null>"
  | .value v => toString v

/-! ## Resource models (file_resource.go / folder_resource.go) -/

structure FileModel where
  path : TF String
  ensureDir : TF Bool
  content : TF String
  owner : TF Int
  ownerName : TF String
  group : TF Int
  groupName : TF String
deriving DecidableEq, Repr

structure FolderModel where
  path : TF String
  owner : TF Int
  ownerName : TF String
  group : TF Int
  groupName : TF String
deriving DecidableEq, Repr

/-- A mutation command issued by a reconciler, with the argument string the
source passes to the client. -/
inductive Mutation where
  | writeContent (content : String)
  | chown (owner : String)
  | chgrp (group : String)
deriving DecidableEq, Repr

/-- `fileResource.Update`, mutation phase (file_resource.go lines 274-303),
on the path where every issued command succeeds: rewrite the content iff
the planned content is known and differs from the prior state
(`!plan.Content.IsUnknown() && plan.Content != state.Content`); chown iff
the planned owner id is known and differs, else iff the planned owner name
is known and differs; chgrp likewise for the group. -/
def fileUpdateMutations (plan state : FileModel) : List Mutation :=
  (if plan.content.isUnknown = false ∧ plan.content ≠ state.content then
    [.writeContent plan.content.valueString]
  else []) ++
  (if plan.owner.isUnknown = false ∧ plan.owner ≠ state.owner then
    [.chown plan.owner.reprInt64]
  else if plan.ownerName.isUnknown = false ∧ plan.ownerName ≠ state.ownerName then
    [.chown plan.ownerName.valueString]
  else []) ++
  (if plan.group.isUnknown = false ∧ plan.group ≠ state.group then
    [.chgrp plan.group.reprInt64]
  else if plan.groupName.isUnknown = false ∧ plan.groupName ≠ state.groupName then
    [.chgrp plan.groupName.valueString]
  else [])

/-- `folderResource.Update`, mutation phase (file_resource.go lines
633-650): same diffing as the file resource, no content, and the name
arguments rendered with `String()` (quoted) rather than `ValueString()`. -/
def folderUpdateMutations (plan state : FolderModel) : List Mutation :=
  (if plan.owner.isUnknown = false ∧ plan.owner ≠ state.owner then
    [.chown plan.owner.reprInt64]
  else if plan.ownerName.isUnknown = false ∧ plan.ownerName ≠ state.ownerName then
    [.chown plan.ownerName.reprString]
  else []) ++
  (if plan.group.isUnknown = false ∧ plan.group ≠ state.group then
    [.chgrp plan.group.reprInt64]
  else if plan.groupName.isUnknown = false ∧ plan.groupName ≠ state.groupName then
    [.chgrp plan.groupName.reprString]
  else [])

/-- `folderResource.Create` (file_resource.go lines 479-554), command
sequence on the all-success path.  `path := plan.Path.String()` — the
quoted representation — is what every client call receives; ownership uses
`plan.Owner.String()` when the id is known, else `plan.OwnerName.String()`
when the name is known (same for group); then the five attribute re-reads
(`%g`, `%u`, `%G`, `%U`, `%a`). -/
def folderCreateCmds (c : RemoteClient) (plan : FolderModel) : List String :=
  let path := plan.path.reprString
  [createDirCmd c path true] ++
  (if plan.owner.isUnknown = false then
    [chownFileCmd c path plan.owner.reprInt64 true]
  else if plan.ownerName.isUnknown = false then
    [chownFileCmd c path plan.ownerName.reprString true]
  else []) ++
  (if plan.group.isUnknown = false then
    [chgrpFileCmd c path plan.group.reprInt64 true]
  else if plan.groupName.isUnknown = false then
    [chgrpFileCmd c path plan.groupName.reprString true]
  else []) ++
  [statFileCmd c path "g" true, statFileCmd c path "u" true,
   statFileCmd c path "G" true, statFileCmd c path "U" true,
   readFilePermissionsCmd c path true]

/-- `fileResource.Create` (file_resource.go lines 127-199), command
sequence on the all-success path.  `path := plan.Path.ValueString()` — the
raw value; write content, then ownership (`plan.Owner.String()` /
`plan.OwnerName.ValueString()`), group likewise, then the content re-read
and the five attribute re-reads. -/
def fileCreateCmds (c : RemoteClient) (plan : FileModel) : List String :=
  let path := plan.path.valueString
  [writeFileShellCmd c plan.content.valueString path true plan.ensureDir.valueBool] ++
  (if plan.owner.isUnknown = false then
    [chownFileCmd c path plan.owner.reprInt64 true]
  else if plan.ownerName.isUnknown = false then
    [chownFileCmd c path plan.ownerName.valueString true]
  else []) ++
  (if plan.group.isUnknown = false then
    [chgrpFileCmd c path plan.group.reprInt64 true]
  else if plan.groupName.isUnknown = false then
    [chgrpFileCmd c path plan.groupName.valueString true]
  else []) ++
  [readFileCmd c path true,
   statFileCmd c path "g" true, statFileCmd c path "u" true,
   statFileCmd c path "G" true, statFileCmd c path "U" true,
   readFilePermissionsCmd c path true]

/-! ## parseInt (file_resource.go lines 473-476)

`strconv.ParseInt(intStr, 10, 32)` with the error discarded.  Go's
`ParseInt`: an empty string or any non-digit is a syntax error with value
0; digit-overflow past `2^32 - 1` inside `ParseUint` yields that maximum
with a range error; the signed cutoff `2^31` then clamps to the int32
extremes, again with a range error.  The repository's `parseInt` returns
the value and drops the error. -/

inductive ParseErr where
  | syntaxErr
  | rangeErr
deriving DecidableEq, Repr

def digitVal : Char → Option Nat
  | c => if '0' ≤ c ∧ c ≤ '9' then some (c.toNat - '0'.toNat) else none

/-- Go `strconv.ParseUint(s, 10, 32)` digit loop: syntax error (value 0)
on a non-digit, range error (value `2^32 - 1`) on overflow. -/
def parseUintCore : List Char → Nat → Nat × Option ParseErr
  | [], acc => (acc, none)
  | c :: rest, acc =>
    match digitVal c with
    | none => (0, some .syntaxErr)
    | some d =>
      if 4294967295 < acc * 10 + d then (4294967295, some .rangeErr)
      else parseUintCore rest (acc * 10 + d)

def goParseUint32 (cs : List Char) : Nat × Option ParseErr :=
  if cs.isEmpty then (0, some .syntaxErr) else parseUintCore cs 0

/-- Go `strconv.ParseInt(s, 10, 32)`: strip an optional sign, parse the
digits as unsigned, then apply the signed cutoff `2^31`. -/
def goParseInt32 (s : String) : Int × Option ParseErr :=
  match s.data with
  | [] => (0, some .syntaxErr)
  | c :: rest =>
    let neg : Bool := if c = '+' then false else if c = '-' then true else false
    let digits : List Char :=
      if c = '+' then rest else if c = '-' then rest else c :: rest
    let pr := goParseUint32 digits
    if pr.2 = some .syntaxErr then (0, some .syntaxErr)
    else if neg = false ∧ 2147483648 ≤ pr.1 then (2147483647, some .rangeErr)
    else if neg = true ∧ 2147483648 < pr.1 then (-2147483648, some .rangeErr)
    else (if neg then -(pr.1 : Int) else (pr.1 : Int), pr.2)

/-- The repository's `parseInt`: the parsed value with the error dropped. -/
def parseInt (intStr : String) : Int :=
  (goParseInt32 intStr).1

/-! ## Post-mutation attribute refresh (file resource)

Each client read returns a value and an error; on error the value is the
empty string (`StatFile` and `ReadFilePermissions` return `"", err`).  A
read outcome is `none` on failure, `some v` on success; the `_`-discard in
the source reads the value and ignores the error. -/

def readVal : Option String → String
  | some v => v
  | none => ""

/-- The observed attributes a file refresh writes into the state of
record. -/
structure ObservedAttrs where
  owner : Int
  group : Int
  ownerName : String
  groupName : String
  permissions : String
deriving DecidableEq, Repr

/-- `fileResource.Create` lines 188-198: the five attribute re-reads with
errors discarded (`group, _ := ...` etc.), ids run through `parseInt`. -/
def fileCreateAttrRefresh (group owner groupName ownerName permissions :
    Option String) : ObservedAttrs :=
  { owner := parseInt (readVal owner)
    group := parseInt (readVal group)
    ownerName := readVal ownerName
    groupName := readVal groupName
    permissions := readVal permissions }

/-- `fileResource.Read` lines 237-248: identical discard pattern. -/
def fileReadAttrRefresh (group owner groupName ownerName permissions :
    Option String) : ObservedAttrs :=
  { owner := parseInt (readVal owner)
    group := parseInt (readVal group)
    ownerName := readVal ownerName
    groupName := readVal groupName
    permissions := readVal permissions }

/-- `fileResource.Update` lines 315-326: identical discard pattern. -/
def fileUpdateAttrRefresh (group owner groupName ownerName permissions :
    Option String) : ObservedAttrs :=
  { owner := parseInt (readVal owner)
    group := parseInt (readVal group)
    ownerName := readVal ownerName
    groupName := readVal groupName
    permissions := readVal permissions }

/-! ## ReadFileShell and ReadFilePermissions result handling -/

/-- Outcome of running one remote command on a session: whether it exited
zero, and the captured output and error streams. -/
structure ExecOutcome where
  ok : Bool
  stdout : String
  stderr : String
deriving DecidableEq, Repr

/-- `ReadFileShell` (session-pool variant, file.go lines 272-296) after
the command ran with outcome `res`: on failure, a captured error stream
containing `No such file or directory` becomes `("", false, none)`; any
other failure propagates the error; success returns the captured standard
output with `exists = true`.  The third component models the returned
`error` (`none` = nil). -/
def readFileShellResult (res : ExecOutcome) : String × Bool × Option Unit :=
  if res.ok then
    (res.stdout, true, none)
  else if goContains res.stderr "No such file or directory" then
    ("", false, none)
  else
    ("", false, some ())

/-- `ReadFilePermissions` (file.go lines 298-319) after a successful
`stat -c %a`: strip newlines from the output; when the result is non-empty
and shorter than 4 bytes, prefix a `0`. -/
def readFilePermissionsResult (output : String) : String :=
  let permissions := goStripNewlines output
  if 0 < permissions.utf8ByteSize ∧ permissions.utf8ByteSize < 4 then
    "0" ++ permissions
  else
    permissions

/-! ## Helper lemmas -/

theorem strEq_of_data {a b : String} (h : a.data = b.data) : a = b := by
  cases a; cases b; exact congrArg String.mk h

theorem strAppend_assoc (a b c : String) : a ++ b ++ c = a ++ (b ++ c) := by
  apply strEq_of_data
  simp [String.data_append, List.append_assoc]

theorem poolStep_cap (p : SessionPool) (op : PoolOp) :
    (poolStep p op).cap = p.cap := by
  cases op with
  | get sessionOk =>
    simp only [poolStep, poolGet]
    split
    · rfl
    · split
      · split <;> rfl
      · rfl
  | put nonNil =>
    simp only [poolStep, poolPut]
    split
    · split <;> rfl
    · rfl
  | close => rfl

theorem poolStep_used_le (p : SessionPool) (op : PoolOp)
    (h : p.used ≤ p.cap) : (poolStep p op).used ≤ p.cap := by
  cases op with
  | get sessionOk =>
    simp only [poolStep, poolGet]
    split
    · exact h
    · split
      · split
        · next hlt _ => simpa using hlt
        · exact h
      · exact h
  | put nonNil =>
    simp only [poolStep, poolPut]
    split
    · split
      · exact le_trans (Nat.sub_le _ _) h
      · exact h
    · exact h
  | close => exact h

theorem poolStep_closed (p : SessionPool) (op : PoolOp)
    (h : p.closed = true) : (poolStep p op).closed = true := by
  cases op with
  | get sessionOk => simp [poolStep, poolGet, h]
  | put nonNil =>
    simp only [poolStep, poolPut]
    split
    · split
      · exact h
      · exact h
    · exact h
  | close => rfl

theorem poolExec_cap (p : SessionPool) (ops : List PoolOp) :
    (poolExec p ops).cap = p.cap := by
  induction ops generalizing p with
  | nil => rfl
  | cons op rest ih =>
    simpa [poolExec, List.foldl_cons, poolStep_cap]
      using (ih (poolStep p op)).trans (poolStep_cap p op)

theorem poolExec_used_le (p : SessionPool) (ops : List PoolOp)
    (h : p.used ≤ p.cap) : (poolExec p ops).used ≤ p.cap := by
  induction ops generalizing p with
  | nil => exact h
  | cons op rest ih =>
    have h1 : (poolStep p op).used ≤ (poolStep p op).cap := by
      rw [poolStep_cap]; exact poolStep_used_le p op h
    have := ih (poolStep p op) h1
    rw [poolStep_cap] at this
    simpa [poolExec, List.foldl_cons] using this

theorem poolExec_closed (p : SessionPool) (ops : List PoolOp)
    (h : p.closed = true) : (poolExec p ops).closed = true := by
  induction ops generalizing p with
  | nil => exact h
  | cons op rest ih =>
    simpa [poolExec, List.foldl_cons] using ih (poolStep p op) (poolStep_closed p op h)

/-! ## Claims -/

/-- Claim C1: for every Remote Filesystem Client method that accepts a
per-call sudo argument (WriteFile, CreateDir, ChownFile, ChgrpFile,
ChmodFile, ReadFile, FileExists, StatFile, DeleteFile, DeleteFolder), the
command string constructed is identical for any two values of that
argument: sudo-prefixing depends only on the client's configured flag. -/
theorem per_call_sudo_never_consulted (c : RemoteClient)
    (content path owner group permissions char : String)
    (ensureDir s1 s2 : Bool) :
    writeFileShellCmd c content path s1 ensureDir
      = writeFileShellCmd c content path s2 ensureDir ∧
    createDirCmd c path s1 = createDirCmd c path s2 ∧
    chownFileCmd c path owner s1 = chownFileCmd c path owner s2 ∧
    chgrpFileCmd c path group s1 = chgrpFileCmd c path group s2 ∧
    chmodFileCmd c path permissions s1 = chmodFileCmd c path permissions s2 ∧
    readFileCmd c path s1 = readFileCmd c path s2 ∧
    fileExistsCmd1 c path s1 = fileExistsCmd1 c path s2 ∧
    fileExistsCmd2 c path s1 = fileExistsCmd2 c path s2 ∧
    statFileCmd c path char s1 = statFileCmd c path char s2 ∧
    deleteFileCmd c path s1 = deleteFileCmd c path s2 ∧
    deleteFolderCmd c path s1 = deleteFolderCmd c path s2 :=
  ⟨rfl, rfl, rfl, rfl, rfl, rfl, rfl, rfl, rfl, rfl, rfl⟩

/-- Claim C2: for every sequence of pool operations on a pool created with
capacity `maxSize` (defaulting to 10 when non-positive), the number of
outstanding leases never exceeds the capacity; and any `Get` stepped after
a `Close` has occurred returns the pool-closed error and grants no new
lease (the state is unchanged). -/
theorem pool_capacity_and_closed (maxSize : Int)
    (ops ops1 ops2 : List PoolOp) (b : Bool) :
    (poolExec (newSessionPool maxSize) ops).used
      ≤ (if maxSize ≤ 0 then 10 else maxSize.toNat) ∧
    poolGet (poolExec (newSessionPool maxSize) (ops1 ++ PoolOp.close :: ops2)) b
      = (poolExec (newSessionPool maxSize) (ops1 ++ PoolOp.close :: ops2),
         GetOutcome.poolClosed) := by
  have hcap : (newSessionPool maxSize).cap
      = (if maxSize ≤ 0 then 10 else maxSize.toNat) := by
    by_cases h : maxSize ≤ 0 <;> simp [newSessionPool, h]
  constructor
  · have := poolExec_used_le (newSessionPool maxSize) ops
      (by simp [newSessionPool])
    rwa [hcap] at this
  · have hclosed :
        (poolExec (newSessionPool maxSize) (ops1 ++ PoolOp.close :: ops2)).closed
          = true := by
      have hmid : (poolStep (poolExec (newSessionPool maxSize) ops1)
          PoolOp.close).closed = true := rfl
      have : poolExec (newSessionPool maxSize) (ops1 ++ PoolOp.close :: ops2)
          = poolExec (poolStep (poolExec (newSessionPool maxSize) ops1)
              PoolOp.close) ops2 := by
        simp [poolExec, List.foldl_append, List.foldl_cons]
      rw [this]
      exact poolExec_closed _ ops2 hmid
    simp [poolGet, hclosed]

/-- Claim C3: `Put` with a nil session is a no-op (nothing closed, no slot
freed); `Put` with a non-nil session closes it and frees one slot — with
`Nat` truncation, `used - 1` leaves the count unchanged at zero, so a
double release neither blocks (the step is total) nor drives the free-slot
accounting below zero. -/
theorem pool_put_behaviour (p : SessionPool) :
    poolPut p false = (p, false) ∧
    (poolPut p true).2 = true ∧
    (poolPut p true).1 = { p with used := p.used - 1 } := by
  refine ⟨rfl, ?_, ?_⟩
  · by_cases h : 0 < p.used <;> simp [poolPut, h]
  · by_cases h : 0 < p.used
    · simp [poolPut, h]
    · have h0 : p.used = 0 := Nat.eq_zero_of_not_pos h
      cases p with
      | mk cap used closed =>
        simp_all [poolPut]

theorem data_empty : ("" : String).data = [] := rfl

/-- Claim C5: when the read-file command fails and the captured error
stream contains `No such file or directory`, `ReadFile` returns
`(content = "", exists = false, err = nil)`; when it fails without that
substring it returns a non-nil error; when it succeeds it returns the
captured standard output with `exists = true`. -/
theorem read_file_absence_signal (res : ExecOutcome) :
    (res.ok = true → readFileShellResult res = (res.stdout, true, none)) ∧
    (res.ok = false →
      goContains res.stderr "No such file or directory" = true →
      readFileShellResult res = ("", false, none)) ∧
    (res.ok = false →
      goContains res.stderr "No such file or directory" = false →
      (readFileShellResult res).1 = "" ∧
      (readFileShellResult res).2.1 = false ∧
      (readFileShellResult res).2.2.isSome = true) :=
  ⟨fun h => by simp [readFileShellResult, h],
   fun h1 h2 => by simp [readFileShellResult, h1, h2],
   fun h1 h2 => by simp [readFileShellResult, h1, h2]⟩

theorem read_file_absence_signal_witness :
    readFileShellResult ⟨true, "blabetiblou", ""⟩ = ("blabetiblou", true, none) ∧
    readFileShellResult ⟨false, "", "cat: /tmp/x: No such file or directory"⟩
      = ("", false, none) ∧
    (readFileShellResult
      ⟨false, "", "cat: /tmp/x: Permission denied"⟩).2.2.isSome = true :=
  ⟨(read_file_absence_signal ⟨true, "blabetiblou", ""⟩).1 rfl,
   (read_file_absence_signal
      ⟨false, "", "cat: /tmp/x: No such file or directory"⟩).2.1 rfl (by decide),
   ((read_file_absence_signal
      ⟨false, "", "cat: /tmp/x: Permission denied"⟩).2.2 rfl (by decide)).2.2⟩

/-- Claim C6: the command `WriteFile` constructs is exactly
`[mkdir -p <dir> && ]cat /dev/stdin | [sudo ]tee <path>`: the `mkdir`
prefix is present iff `ensureDir` is set, `<dir>` is the path with its
last `/`-separated segment removed, and the sudo prefix applies only to
the `tee` stage. -/
theorem write_file_command_shape (c : RemoteClient) (content path : String)
    (sudoArg ensureDir : Bool) :
    writeFileShellCmd c content path sudoArg ensureDir
      = (if ensureDir then
          "mkdir -p " ++ goJoinSlash ((goSplitSlash path).dropLast) ++ " && "
        else "")
        ++ "cat /dev/stdin | "
        ++ (if c.sudoCfg then "sudo " else "")
        ++ "tee " ++ path := by
  rcases c with ⟨cs⟩
  apply strEq_of_data
  cases cs <;> cases ensureDir <;>
    simp [writeFileShellCmd, String.data_append, data_empty, List.append_assoc]

/-- Claim C8: on a successful `stat`, `ReadFilePermissions` returns the
output with newlines removed; when that string is non-empty and shorter
than 4 bytes a leading zero is prefixed; when it is already at least
4 bytes long, or empty, it is returned unchanged. -/
theorem read_permissions_padding (output : String) :
    (4 ≤ (goStripNewlines output).utf8ByteSize →
      readFilePermissionsResult output = goStripNewlines output) ∧
    ((goStripNewlines output).utf8ByteSize = 0 →
      readFilePermissionsResult output = goStripNewlines output) ∧
    (0 < (goStripNewlines output).utf8ByteSize →
      (goStripNewlines output).utf8ByteSize < 4 →
      readFilePermissionsResult output = "0" ++ goStripNewlines output) := by
  refine ⟨fun h => ?_, fun h => ?_, fun h1 h2 => ?_⟩ <;>
    simp only [readFilePermissionsResult] <;> split_ifs with hc
  · exact absurd hc (by omega)
  · rfl
  · exact absurd hc (by omega)
  · rfl
  · rfl
  · exact absurd hc (by simp [h1, h2])

theorem read_permissions_padding_witness :
    readFilePermissionsResult "755\n" = "0755" ∧
    readFilePermissionsResult "1755\n" = "1755" ∧
    readFilePermissionsResult "" = "" := by
  refine ⟨?_, ?_, ?_⟩
  · exact ((read_permissions_padding "755\n").2.2 (by decide) (by decide)).trans
      (by decide)
  · exact ((read_permissions_padding "1755\n").1 (by decide)).trans (by decide)
  · exact ((read_permissions_padding "").2.1 (by decide)).trans (by decide)

/-- Claim C7: every client method — WriteFile, CreateDir, ChownFile,
ChgrpFile, ChmodFile, ReadFile, StatFile, DeleteFile, DeleteFolder,
ReadFilePermissions, dirExists and FileExists — leases and releases
channels in balance on every exit path (each successful lease is matched
by a release), leases at most one channel and, when its lease and any
input pipe succeed, runs exactly one command on it; `FileExists` leases at
most two channels, exactly one (with one command) when the first probe
succeeds, and exactly two (with two commands, both released) when the
first probe fails and the second channel is granted. -/
theorem lease_run_release_balance (c : RemoteClient)
    (content path owner group permissions char : String)
    (sudoArg ensureDir : Bool) (g st r g2 : Bool) :
    (countReleased (writeFileTrace c content path sudoArg ensureDir g st)
        = countLeased (writeFileTrace c content path sudoArg ensureDir g st) ∧
      countLeased (writeFileTrace c content path sudoArg ensureDir g st) ≤ 1 ∧
      countRun (writeFileTrace c content path sudoArg ensureDir true true) = 1) ∧
    (countReleased (createDirTrace c path sudoArg g)
        = countLeased (createDirTrace c path sudoArg g) ∧
      countLeased (createDirTrace c path sudoArg g) ≤ 1 ∧
      countRun (createDirTrace c path sudoArg true) = 1) ∧
    (countReleased (chownFileTrace c path owner sudoArg g)
        = countLeased (chownFileTrace c path owner sudoArg g) ∧
      countLeased (chownFileTrace c path owner sudoArg g) ≤ 1 ∧
      countRun (chownFileTrace c path owner sudoArg true) = 1) ∧
    (countReleased (chgrpFileTrace c path group sudoArg g)
        = countLeased (chgrpFileTrace c path group sudoArg g) ∧
      countLeased (chgrpFileTrace c path group sudoArg g) ≤ 1 ∧
      countRun (chgrpFileTrace c path group sudoArg true) = 1) ∧
    (countReleased (chmodFileTrace c path permissions sudoArg g)
        = countLeased (chmodFileTrace c path permissions sudoArg g) ∧
      countLeased (chmodFileTrace c path permissions sudoArg g) ≤ 1 ∧
      countRun (chmodFileTrace c path permissions sudoArg true) = 1) ∧
    (countReleased (readFileTrace c path sudoArg g)
        = countLeased (readFileTrace c path sudoArg g) ∧
      countLeased (readFileTrace c path sudoArg g) ≤ 1 ∧
      countRun (readFileTrace c path sudoArg true) = 1) ∧
    (countReleased (statFileTrace c path char sudoArg g)
        = countLeased (statFileTrace c path char sudoArg g) ∧
      countLeased (statFileTrace c path char sudoArg g) ≤ 1 ∧
      countRun (statFileTrace c path char sudoArg true) = 1) ∧
    (countReleased (deleteFileTrace c path sudoArg g)
        = countLeased (deleteFileTrace c path sudoArg g) ∧
      countLeased (deleteFileTrace c path sudoArg g) ≤ 1 ∧
      countRun (deleteFileTrace c path sudoArg true) = 1) ∧
    (countReleased (deleteFolderTrace c path sudoArg g)
        = countLeased (deleteFolderTrace c path sudoArg g) ∧
      countLeased (deleteFolderTrace c path sudoArg g) ≤ 1 ∧
      countRun (deleteFolderTrace c path sudoArg true) = 1) ∧
    (countReleased (readFilePermissionsTrace c path sudoArg g)
        = countLeased (readFilePermissionsTrace c path sudoArg g) ∧
      countLeased (readFilePermissionsTrace c path sudoArg g) ≤ 1 ∧
      countRun (readFilePermissionsTrace c path sudoArg true) = 1) ∧
    (countReleased (dirExistsTrace c path g)
        = countLeased (dirExistsTrace c path g) ∧
      countLeased (dirExistsTrace c path g) ≤ 1 ∧
      countRun (dirExistsTrace c path true) = 1) ∧
    (countReleased (fileExistsTrace c path sudoArg g r g2)
        = countLeased (fileExistsTrace c path sudoArg g r g2) ∧
      countLeased (fileExistsTrace c path sudoArg g r g2) ≤ 2 ∧
      countLeased (fileExistsTrace c path sudoArg true true g2) = 1 ∧
      countRun (fileExistsTrace c path sudoArg true true g2) = 1 ∧
      countLeased (fileExistsTrace c path sudoArg true false true) = 2 ∧
      countRun (fileExistsTrace c path sudoArg true false true) = 2) := by
  cases g <;> cases st <;> cases r <;> cases g2 <;>
    simp [writeFileTrace, createDirTrace, chownFileTrace, chgrpFileTrace,
      chmodFileTrace, readFileTrace, statFileTrace, deleteFileTrace,
      deleteFolderTrace, readFilePermissionsTrace, dirExistsTrace,
      fileExistsTrace, singleSessionTrace,
      countLeased, countReleased, countRun]

/-- Claim C4: for file and folder resources, `Update` issues zero mutation
commands when every mutable planned attribute equals the previously
observed one; each mutation is issued only when its field differs — a
content write only on a content difference, a chown only when the owner id
differs (checked first) or, the id branch not having fired, when the owner
name differs; likewise for the group. -/
theorem update_minimal_diff (pf sf : FileModel) (pd sd : FolderModel) :
    (pf.content = sf.content → pf.owner = sf.owner →
      pf.ownerName = sf.ownerName → pf.group = sf.group →
      pf.groupName = sf.groupName → fileUpdateMutations pf sf = []) ∧
    (pd.owner = sd.owner → pd.ownerName = sd.ownerName →
      pd.group = sd.group → pd.groupName = sd.groupName →
      folderUpdateMutations pd sd = []) ∧
    (∀ s, Mutation.writeContent s ∈ fileUpdateMutations pf sf →
      pf.content.isUnknown = false ∧ pf.content ≠ sf.content) ∧
    (∀ s, Mutation.chown s ∈ fileUpdateMutations pf sf →
      (pf.owner.isUnknown = false ∧ pf.owner ≠ sf.owner) ∨
      (¬(pf.owner.isUnknown = false ∧ pf.owner ≠ sf.owner) ∧
        pf.ownerName.isUnknown = false ∧ pf.ownerName ≠ sf.ownerName)) ∧
    (∀ s, Mutation.chgrp s ∈ fileUpdateMutations pf sf →
      (pf.group.isUnknown = false ∧ pf.group ≠ sf.group) ∨
      (¬(pf.group.isUnknown = false ∧ pf.group ≠ sf.group) ∧
        pf.groupName.isUnknown = false ∧ pf.groupName ≠ sf.groupName)) ∧
    (∀ s, Mutation.chown s ∈ folderUpdateMutations pd sd →
      (pd.owner.isUnknown = false ∧ pd.owner ≠ sd.owner) ∨
      (¬(pd.owner.isUnknown = false ∧ pd.owner ≠ sd.owner) ∧
        pd.ownerName.isUnknown = false ∧ pd.ownerName ≠ sd.ownerName)) ∧
    (∀ s, Mutation.chgrp s ∈ folderUpdateMutations pd sd →
      (pd.group.isUnknown = false ∧ pd.group ≠ sd.group) ∨
      (¬(pd.group.isUnknown = false ∧ pd.group ≠ sd.group) ∧
        pd.groupName.isUnknown = false ∧ pd.groupName ≠ sd.groupName)) := by
  refine ⟨fun h1 h2 h3 h4 h5 => ?_, fun h1 h2 h3 h4 => ?_,
    fun s hs => ?_, fun s hs => ?_, fun s hs => ?_, fun s hs => ?_,
    fun s hs => ?_⟩
  · simp [fileUpdateMutations, h1, h2, h3, h4, h5]
  · simp [folderUpdateMutations, h1, h2, h3, h4]
  all_goals
    simp only [fileUpdateMutations, folderUpdateMutations,
      List.mem_append, List.mem_singleton] at hs
  all_goals
    split_ifs at hs <;> simp_all <;> tauto

def c4FileEq : FileModel :=
  ⟨.value "/f", .null, .value "a", .value 1, .value "r", .value 2, .value "w"⟩

def c4FilePlan : FileModel :=
  ⟨.value "/f", .null, .value "b", .unknown, .value "r2", .value 2, .value "w"⟩

def c4FolderEq : FolderModel :=
  ⟨.value "/d", .value 1, .value "r", .value 2, .value "w"⟩

theorem update_minimal_diff_witness :
    fileUpdateMutations c4FileEq c4FileEq = [] ∧
    folderUpdateMutations c4FolderEq c4FolderEq = [] ∧
    (c4FilePlan.content.isUnknown = false ∧
      c4FilePlan.content ≠ c4FileEq.content) :=
  ⟨(update_minimal_diff c4FileEq c4FileEq c4FolderEq c4FolderEq).1
      rfl rfl rfl rfl rfl,
   (update_minimal_diff c4FileEq c4FileEq c4FolderEq c4FolderEq).2.1
      rfl rfl rfl rfl,
   (update_minimal_diff c4FilePlan c4FileEq c4FolderEq c4FolderEq).2.2.1
      "b" (by decide)⟩

theorem flatMap_goQuoteChar_plain (l : List Char)
    (h : l.all plainChar = true) : l.flatMap goQuoteChar = l := by
  induction l with
  | nil => rfl
  | cons c rest ih =>
    simp only [List.all_cons, Bool.and_eq_true] at h
    have hc := h.1
    simp only [plainChar, decide_eq_true_eq] at hc
    have hq : goQuoteChar c = [c] := by
      simp [goQuoteChar, hc.2.1, hc.2.2]
    simp [List.flatMap_cons, hq, ih h.2]

theorem goQuote_plain (s : String) (h : s.data.all plainChar = true) :
    goQuote s = "\"" ++ s ++ "\"" := by
  unfold goQuote
  rw [flatMap_goQuoteChar_plain _ h]

/-- Claim C9: folder `Create` passes the quoted representation of the
planned path to `CreateDir`, `ChownFile`, `ChgrpFile` and every
post-create attribute read, and quoted owner/group names to chown/chgrp,
whereas file `Create` passes the raw values; consequently the
folder-creation command is `mkdir -p "<path>"`.  (Plans with a known path
and names, ids left unknown; values restricted to the plain printable
characters on which the `%q` model is exact.) -/
theorem quoted_vs_raw_create_arguments (c : RemoteClient)
    (p ct ow gn : String)
    (hp : p.data.all plainChar = true)
    (hon : ow.data.all plainChar = true)
    (hgn : gn.data.all plainChar = true) :
    folderCreateCmds c ⟨.value p, .unknown, .value ow, .unknown, .value gn⟩
      = [createDirCmd c ("\"" ++ p ++ "\"") true,
         chownFileCmd c ("\"" ++ p ++ "\"") ("\"" ++ ow ++ "\"") true,
         chgrpFileCmd c ("\"" ++ p ++ "\"") ("\"" ++ gn ++ "\"") true,
         statFileCmd c ("\"" ++ p ++ "\"") "g" true,
         statFileCmd c ("\"" ++ p ++ "\"") "u" true,
         statFileCmd c ("\"" ++ p ++ "\"") "G" true,
         statFileCmd c ("\"" ++ p ++ "\"") "U" true,
         readFilePermissionsCmd c ("\"" ++ p ++ "\"") true] ∧
    fileCreateCmds c
        ⟨.value p, .value false, .value ct, .unknown, .value ow,
         .unknown, .value gn⟩
      = [writeFileShellCmd c ct p true false,
         chownFileCmd c p ow true,
         chgrpFileCmd c p gn true,
         readFileCmd c p true,
         statFileCmd c p "g" true,
         statFileCmd c p "u" true,
         statFileCmd c p "G" true,
         statFileCmd c p "U" true,
         readFilePermissionsCmd c p true] ∧
    createDirCmd ⟨false⟩ ("\"" ++ p ++ "\"") true
      = "mkdir -p \"" ++ p ++ "\"" := by
  refine ⟨?_, ?_, ?_⟩
  · simp [folderCreateCmds, TF.isUnknown, TF.reprString,
      goQuote_plain p hp, goQuote_plain ow hon, goQuote_plain gn hgn]
  · simp [fileCreateCmds, TF.isUnknown, TF.valueString, TF.valueBool]
  · apply strEq_of_data
    simp only [createDirCmd, Bool.false_eq_true, if_false,
      String.data_append, List.append_assoc]
    rw [← List.append_assoc]
    rfl

theorem quoted_vs_raw_create_arguments_witness :
    (folderCreateCmds ⟨false⟩
        ⟨.value "/tmp/tests11", .unknown, .value "root",
         .unknown, .value "root"⟩).head?
      = some "mkdir -p \"/tmp/tests11\"" ∧
    (fileCreateCmds ⟨false⟩
        ⟨.value "/tmp/f", .value false, .value "blabetiblou",
         .unknown, .value "root", .unknown, .value "root"⟩).head?
      = some "cat /dev/stdin | tee /tmp/f" := by
  constructor
  · rw [(quoted_vs_raw_create_arguments ⟨false⟩ "/tmp/tests11" "x" "root" "root"
      (by decide) (by decide) (by decide)).1]
    decide
  · rw [(quoted_vs_raw_create_arguments ⟨false⟩ "/tmp/f" "blabetiblou" "root"
      "root" (by decide) (by decide) (by decide)).2.1]
    decide

theorem parseUintCore_syntax_val (cs : List Char) (acc : Nat)
    (h : (parseUintCore cs acc).2 = some ParseErr.syntaxErr) :
    (parseUintCore cs acc).1 = 0 := by
  induction cs generalizing acc with
  | nil => simp [parseUintCore] at h
  | cons c rest ih =>
    simp only [parseUintCore] at h ⊢
    cases hd : digitVal c with
    | none => simp [hd]
    | some d =>
      simp only [hd] at h ⊢
      split_ifs at h ⊢ with hov
      · simp at h
      · exact ih _ h

theorem goParseInt32_syntax_val (s : String)
    (h : (goParseInt32 s).2 = some ParseErr.syntaxErr) :
    (goParseInt32 s).1 = 0 := by
  rcases s with ⟨data⟩
  cases data with
  | nil => rfl
  | cons c rest =>
    simp only [goParseInt32] at h ⊢
    split_ifs at h ⊢ <;> simp_all

/-- Claim C10: in the file resource's Create, Read and Update, a failing
post-mutation attribute re-read is silently ignored — each client read
hands back the empty string alongside the dropped error, so the refreshed
state holds owner and group id 0 (`parseInt` maps any unparseable or empty
string, i.e. any syntax-error input, to 0) and empty owner name, group
name and permissions; the refresh functions surface no error by
construction. -/
theorem silent_attr_reread_failures (s : String) :
    ((goParseInt32 s).2 = some ParseErr.syntaxErr → parseInt s = 0) ∧
    parseInt "" = 0 ∧
    fileCreateAttrRefresh none none none none none
      = { owner := 0, group := 0, ownerName := "", groupName := "",
          permissions := "" } ∧
    fileReadAttrRefresh none none none none none
      = { owner := 0, group := 0, ownerName := "", groupName := "",
          permissions := "" } ∧
    fileUpdateAttrRefresh none none none none none
      = { owner := 0, group := 0, ownerName := "", groupName := "",
          permissions := "" } :=
  ⟨fun h => goParseInt32_syntax_val s h, rfl, rfl, rfl, rfl⟩

theorem silent_attr_reread_failures_witness :
    parseInt "notanumber" = 0 :=
  (silent_attr_reread_failures "notanumber").1 (by decide)

end RemoteProvider
